import Mathlib

/-!
Verification of the joystickmidi HID-to-MIDI mapper (src/main.cpp).

This file gives a shallow embedding of the core logic of the program:

* the MIDI mapping decision function `SendMidiMessage` (src/main.cpp:1094-1187),
* the raw-input decode/change-detection step of `WindowProc` (src/main.cpp:294-298),
* the calibration routine `PerformCalibration` and its `captureHoldValue` /
  `performCountdown` helpers (src/main.cpp:657-900),
* the monitoring loop of `main` (src/main.cpp:1830-1875) and its shutdown
  MIDI reset sequence (src/main.cpp:1884-1901).

Machine integers (`LONG`, `int`) are modelled as `Int`; the C++ `double`
arithmetic of the axis mapping is modelled exactly over `ℚ` (at every input
considered in the concrete statements below the `double` computation is exact,
so the models agree).  Bitwise operations `x & 0x0F` / `x & 0x7F` on two's
complement integers coincide with `x.emod 16` / `x.emod 128`.  Console output,
the Win32 message pump and the MIDI transport are modelled only through their
observable effects: decoded samples arriving, a sticky quit flag, and the list
of 3-byte messages handed to `g_midiOut.sendMessage`.
-/

namespace JoystickMidi

/-- Mirrors `enum class MidiMessageType { NONE, NOTE_ON_OFF, CC }`. -/
inductive MidiMessageType
  | NONE
  | NOTE_ON_OFF
  | CC
deriving DecidableEq, Repr

/-- One 3-byte MIDI channel-voice message as passed to `g_midiOut.sendMessage`. -/
structure MidiMsg where
  status : Nat
  data1 : Nat
  data2 : Nat
deriving DecidableEq, Repr

/-- The fields of `MidiMappingConfig` (with the embedded `HidControlInfo.isButton`)
that the core logic reads (src/main.cpp:113-142). -/
structure Config where
  isButton : Bool
  midiMessageType : MidiMessageType
  midiChannel : Int
  midiNoteOrCCNumber : Int
  midiValueNoteOnVelocity : Int
  midiValueCCOn : Int
  midiValueCCOff : Int
  calibrationMinHid : Int
  calibrationMaxHid : Int
  calibrationDone : Bool
  reverseAxis : Bool
  midiSendIntervalMs : Int
deriving DecidableEq, Repr

/-- Two's complement `x & 0x0F` as a byte-valued number. -/
def mask4 (x : Int) : Nat := (x.emod 16).toNat

/-- Two's complement `x & 0x7F` as a byte-valued number. -/
def mask7 (x : Int) : Nat := (x.emod 128).toNat

/-- The axis→CC value computation of `SendMidiMessage` (src/main.cpp:1141-1161):
compute `hidRange`; if it is positive, clamp the current raw value into the
calibrated range and normalize; otherwise map values at/above
`calibrationMaxHid` to `1.0` and the rest to `0.0`; reverse if configured;
then `static_cast<int>(normalized * 127.0 + 0.5)` (the argument is
nonnegative, so the C++ truncation is `Int.floor`) and clamp to `[0, 127]`. -/
def axisMidiValue (cfg : Config) (current : Int) : Int :=
  let hidRange := cfg.calibrationMaxHid - cfg.calibrationMinHid
  let normalizedValue : ℚ :=
    if 0 < hidRange then
      let clampedValue := max cfg.calibrationMinHid (min cfg.calibrationMaxHid current)
      ((clampedValue - cfg.calibrationMinHid : Int) : ℚ) / ((hidRange : Int) : ℚ)
    else
      if cfg.calibrationMaxHid ≤ current then 1 else 0
  let reversedValue := if cfg.reverseAxis then 1 - normalizedValue else normalizedValue
  let midiValue : Int := Int.floor (reversedValue * 127 + 1 / 2)
  max 0 (min 127 midiValue)

/-- The axis mapping as worded by the specification (§4.4): clamp the raw value
to `[minRaw, maxRaw]`; normalize to `[0.0, 1.0]` as
`(clamped - minRaw) / (maxRaw - minRaw)`, or `1.0` if `maxRaw == minRaw` and
the raw value is at/above it, else `0.0`; if `reverseAxis`, invert; scale to
`[0, 127]` with round-half-up and clamp.  Kept separate from `axisMidiValue`
so that the two can be compared. -/
def axisMidiSpecValue (cfg : Config) (current : Int) : Int :=
  let normalized : ℚ :=
    if cfg.calibrationMaxHid = cfg.calibrationMinHid then
      if cfg.calibrationMinHid ≤ current then 1 else 0
    else
      let clamped := max cfg.calibrationMinHid (min cfg.calibrationMaxHid current)
      ((clamped - cfg.calibrationMinHid : Int) : ℚ) /
        ((cfg.calibrationMaxHid - cfg.calibrationMinHid : Int) : ℚ)
  let inverted := if cfg.reverseAxis then 1 - normalized else normalized
  max 0 (min 127 (Int.floor (inverted * 127 + 1 / 2)))

/-- The mutable globals read and written by `SendMidiMessage`:
`g_currentValue`, `g_previousValue`, `g_lastSentMidiValue`. -/
structure SendState where
  currentValue : Int
  previousValue : Int
  lastSentMidiValue : Int
deriving DecidableEq, Repr

/-- `SendMidiMessage` (src/main.cpp:1094-1187), with the MIDI port assumed
open; returns the list of messages passed to `sendMessage` (zero or one) and
the new value of `g_lastSentMidiValue`.

* buttons (src/main.cpp:1106-1136): edge-triggered Note On/Off or CC;
* axes (src/main.cpp:1137-1175): calibrated CC with change suppression. -/
def sendMidiMessage (cfg : Config) (s : SendState) : List MidiMsg × Int :=
  if cfg.midiMessageType = MidiMessageType.NONE then ([], s.lastSentMidiValue)
  else if cfg.isButton then
    let currentlyPressed : Bool := s.currentValue != 0
    let wasPressed : Bool := s.previousValue != 0
    if currentlyPressed ≠ wasPressed then
      if cfg.midiMessageType = MidiMessageType.NOTE_ON_OFF then
        if currentlyPressed then
          ([⟨0x90 + mask4 cfg.midiChannel, mask7 cfg.midiNoteOrCCNumber,
             mask7 cfg.midiValueNoteOnVelocity⟩], -1)
        else
          ([⟨0x80 + mask4 cfg.midiChannel, mask7 cfg.midiNoteOrCCNumber, 0x00⟩], -1)
      else
        let ccValue := mask7 (if currentlyPressed then cfg.midiValueCCOn else cfg.midiValueCCOff)
        ([⟨0xB0 + mask4 cfg.midiChannel, mask7 cfg.midiNoteOrCCNumber, ccValue⟩],
         (ccValue : Int))
    else ([], s.lastSentMidiValue)
  else
    if cfg.midiMessageType = MidiMessageType.CC ∧ cfg.calibrationDone = true then
      let midiValue := axisMidiValue cfg s.currentValue
      if midiValue ≠ s.lastSentMidiValue then
        ([⟨0xB0 + mask4 cfg.midiChannel, mask7 cfg.midiNoteOrCCNumber, midiValue.toNat⟩],
         midiValue)
      else ([], s.lastSentMidiValue)
    else ([], s.lastSentMidiValue)

/-- The mutable globals of the monitoring loop: `g_currentValue`,
`g_previousValue`, `g_valueChanged`, `g_lastSentMidiValue`,
`g_lastMidiSendTime` (milliseconds on the steady clock). -/
structure LoopState where
  currentValue : Int
  previousValue : Int
  valueChanged : Bool
  lastSentMidiValue : Int
  lastMidiSendTime : Int
deriving DecidableEq, Repr

/-- The decode side effect of `WindowProc` for one successfully decoded raw
sample (src/main.cpp:294-298): if the value differs from the stored
`g_currentValue`, store it and set `g_valueChanged`. -/
def procSample (s : LoopState) (v : Int) : LoopState :=
  if v ≠ s.currentValue then { s with currentValue := v, valueChanged := true } else s

/-- `midiSendInterval` as computed at src/main.cpp:1836:
`cfg.midiSendIntervalMs` if positive, else 1 ms. -/
def intervalMs (cfg : Config) : Int :=
  if 0 < cfg.midiSendIntervalMs then cfg.midiSendIntervalMs else 1

/-- One iteration of the monitoring loop, seen from the outside: the time
`now` at which it runs and the successfully decoded raw samples its
`PeekMessage` pump delivers to `WindowProc`. -/
structure Tick where
  time : Int
  samples : List Int
deriving DecidableEq, Repr

/-- One iteration of the monitoring loop (src/main.cpp:1839-1875): drain the
message pump (`procSample` on each decoded sample), then, if `g_valueChanged`
and at least `midiSendInterval` elapsed since `g_lastMidiSendTime`, run
`SendMidiMessage`, stamp the send time, copy `g_currentValue` to
`g_previousValue` and clear `g_valueChanged`.  Returns the new state and the
messages sent this tick. -/
def loopTick (cfg : Config) (s : LoopState) (t : Tick) : LoopState × List MidiMsg :=
  let s1 := t.samples.foldl procSample s
  if s1.valueChanged = true ∧ intervalMs cfg ≤ t.time - s1.lastMidiSendTime then
    let r := sendMidiMessage cfg ⟨s1.currentValue, s1.previousValue, s1.lastSentMidiValue⟩
    ({ s1 with previousValue := s1.currentValue, valueChanged := false,
               lastSentMidiValue := r.2, lastMidiSendTime := t.time }, r.1)
  else (s1, [])

/-- Run the monitoring loop over a list of ticks, recording for each tick its
time and the messages it sent. -/
def runLoop (cfg : Config) : LoopState → List Tick → List (Int × List MidiMsg)
  | _, [] => []
  | s, t :: ts => (t.time, (loopTick cfg s t).2) :: runLoop cfg (loopTick cfg s t).1 ts

/-- The state of the monitoring loop just before its first iteration
(src/main.cpp:1833-1837): `g_previousValue = g_currentValue`,
`g_lastSentMidiValue = -1`, `g_valueChanged = true`, and
`g_lastMidiSendTime` backdated by one send interval. -/
def initLoopState (cfg : Config) (current now : Int) : LoopState :=
  { currentValue := current, previousValue := current, valueChanged := true,
    lastSentMidiValue := -1, lastMidiSendTime := now - intervalMs cfg }

/-- Feed one raw sample to the mapper with rate limiting ignored (flag set and
interval elapsed on every tick): store the sample as `g_currentValue`, run
`SendMidiMessage`, then copy it to `g_previousValue` as the loop does. -/
def stepSample (cfg : Config) (s : SendState) (v : Int) : SendState × List MidiMsg :=
  let r := sendMidiMessage cfg { s with currentValue := v }
  (⟨v, v, r.2⟩, r.1)

/-- Messages produced by feeding a sequence of raw samples through
`stepSample`. -/
def runSamples (cfg : Config) : SendState → List Int → List MidiMsg
  | _, [] => []
  | s, v :: vs => (stepSample cfg s v).2 ++ runSamples cfg (stepSample cfg s v).1 vs

/-- The shutdown MIDI reset sequence (src/main.cpp:1884-1898): for every
channel 0..15 in order, CC 120 (All Sound Off), CC 121 (Reset All
Controllers) and CC 123 (All Notes Off), each with status `0xB0 | ch` and
data value 0, all sent before `g_midiOut.closePort()`. -/
def shutdownMidiMessages : List MidiMsg :=
  (List.range 16).flatMap fun ch =>
    [⟨0xB0 ||| ch, 120, 0⟩, ⟨0xB0 ||| ch, 121, 0⟩, ⟨0xB0 ||| ch, 123, 0⟩]

/-- `std::numeric_limits<LONG>::max()` on Windows (32-bit `LONG`). -/
def LONG_MAX : Int := 2147483647

/-- `std::numeric_limits<LONG>::min()` on Windows (32-bit `LONG`). -/
def LONG_MIN : Int := -2147483648

/-- What one iteration of the `captureHoldValue` hold loop observes from its
message pump: either a quit signal (`WM_QUIT` / Ctrl-C, setting `g_quitFlag`)
or a batch of successfully decoded raw samples. -/
inductive HoldEvent
  | quit
  | samples (vs : List Int)
deriving DecidableEq, Repr

/-- Whether a hold event is the quit signal. -/
def HoldEvent.isQuit : HoldEvent → Bool
  | .quit => true
  | .samples _ => false

/-- All raw sample values carried by a list of hold events. -/
def sampleValues (es : List HoldEvent) : List Int :=
  es.flatMap fun e =>
    match e with
    | .quit => []
    | .samples vs => vs

/-- The local state of the `captureHoldValue` hold loop
(src/main.cpp:724-811) together with the globals it touches. -/
structure HoldState where
  currentValue : Int
  valueChanged : Bool
  extremeValue : Int
  valueCaptured : Bool
  quitFlag : Bool
deriving DecidableEq, Repr

/-- The `WindowProc` decode effect during calibration, on the hold-loop view
of the globals (same update as `procSample`). -/
def holdSample (s : HoldState) (v : Int) : HoldState :=
  if v ≠ s.currentValue then { s with currentValue := v, valueChanged := true } else s

/-- The same decode effect on just the `(g_currentValue, g_valueChanged)`
pair. -/
def pumpSample (q : Int × Bool) (v : Int) : Int × Bool :=
  if v ≠ q.1 then (v, true) else q

/-- `std::min` for the min stage, `std::max` for the max stage. -/
def holdExtremeOp (captureMin : Bool) (a b : Int) : Int :=
  if captureMin then min a b else max a b

/-- One iteration of the `captureHoldValue` loop (src/main.cpp:747-790): once
`g_quitFlag` is set the loop has exited, so later events are ignored; a quit
message sets the flag; otherwise the pump delivers its samples and then, if
`g_valueChanged`, the running extreme is updated via `holdExtremeOp`,
`valueCaptured` is set and the flag is cleared. -/
def holdStep (captureMin : Bool) (s : HoldState) (e : HoldEvent) : HoldState :=
  if s.quitFlag then s
  else
    match e with
    | .quit => { s with quitFlag := true }
    | .samples vs =>
      let s1 := vs.foldl holdSample s
      if s1.valueChanged then
        { s1 with
            extremeValue := holdExtremeOp captureMin s1.extremeValue s1.currentValue,
            valueCaptured := true, valueChanged := false }
      else s1

/-- Run the `captureHoldValue` loop from its initial state
(src/main.cpp:725-731): `extremeValue` starts at the `LONG` sentinel,
`valueCaptured` is false, `g_valueChanged` is reset before the hold starts,
and `initial` is `g_currentValue` captured before the hold began. -/
def captureHoldRun (captureMin : Bool) (initial : Int) (es : List HoldEvent) : HoldState :=
  es.foldl (holdStep captureMin)
    { currentValue := initial, valueChanged := false,
      extremeValue := if captureMin then LONG_MAX else LONG_MIN,
      valueCaptured := false, quitFlag := false }

/-- The return value of `captureHoldValue` (src/main.cpp:797-810): `-1` when a
quit was requested; the pre-hold value when no change at all was observed
(the warning fallback); otherwise the captured extreme. -/
def captureHoldValue (captureMin : Bool) (initial : Int) (es : List HoldEvent) : Int :=
  let s := captureHoldRun captureMin initial es
  if s.quitFlag then -1
  else if s.valueCaptured = false then initial
  else s.extremeValue

/-- Replay of the hold loop on just `(g_currentValue, g_valueChanged)`,
collecting the value the loop observes (reads into its extreme) at every
iteration where the change flag is up.  The loop breaks at a quit signal. -/
def holdObservedAux : Int × Bool → List HoldEvent → List Int
  | _, [] => []
  | _, .quit :: _ => []
  | p, .samples vs :: es =>
    let p1 := vs.foldl pumpSample p
    if p1.2 then p1.1 :: holdObservedAux (p1.1, false) es
    else holdObservedAux p1 es

/-- The values the hold loop observes, starting from the pre-hold value with
the change flag cleared. -/
def holdObserved (initial : Int) (es : List HoldEvent) : List Int :=
  holdObservedAux (initial, false) es

/-- The calibration result fields of `MidiMappingConfig` written by
`PerformCalibration`. -/
structure CalibConfigState where
  calibrationMinHid : Int
  calibrationMaxHid : Int
  calibrationDone : Bool
deriving DecidableEq, Repr

/-- The `g_quitFlag` / local `success` pair threaded through
`PerformCalibration`, together with the config fields it mutates. -/
structure CalibLoopSt where
  quit : Bool
  success : Bool
  cfg : CalibConfigState
deriving DecidableEq, Repr

/-- The outcome of `PerformCalibration`: its boolean return value and the
final calibration fields of `g_currentConfig`. -/
structure CalibResult where
  ok : Bool
  cfg : CalibConfigState
deriving DecidableEq, Repr

/-- What the environment does during one `PerformCalibration` run: whether a
quit arrives before the min countdown (src/main.cpp:820), during either
countdown, and what each hold-phase pump delivers; `currentAtHoldMin` /
`currentAtHoldMax` are the values of `g_currentValue` when the respective
hold begins. -/
structure CalibScript where
  quitBeforeMin : Bool
  quitInCountdownMin : Bool
  currentAtHoldMin : Int
  holdMinEvents : List HoldEvent
  quitInCountdownMax : Bool
  currentAtHoldMax : Int
  holdMaxEvents : List HoldEvent
deriving DecidableEq, Repr

/-- A `performCountdown` call (src/main.cpp:683-719), run only while
`success` holds: it returns `!g_quitFlag`, so `success` becomes false exactly
when a quit arrived before or during the countdown. -/
def calibPhaseCountdown (quitIn : Bool) (st : CalibLoopSt) : CalibLoopSt :=
  if st.success then
    let q := st.quit || quitIn
    ⟨q, !q, st.cfg⟩
  else st

/-- The re-check of `g_quitFlag` before the max stage (src/main.cpp:851). -/
def calibPhaseRecheck (st : CalibLoopSt) : CalibLoopSt :=
  if st.success then (if st.quit then ⟨st.quit, false, st.cfg⟩ else st) else st

/-- The min hold stage (src/main.cpp:827-843): call `captureHoldValue`; on
`capturedMin == -1 && g_quitFlag` mark failure, otherwise store the captured
value in `calibrationMinHid`. -/
def calibPhaseHoldMin (initial : Int) (es : List HoldEvent) (st : CalibLoopSt) : CalibLoopSt :=
  if st.success then
    let hs := captureHoldRun true initial es
    let capturedMin := captureHoldValue true initial es
    let q := st.quit || hs.quitFlag
    if capturedMin = -1 ∧ q = true then ⟨q, false, st.cfg⟩
    else ⟨q, st.success, { st.cfg with calibrationMinHid := capturedMin }⟩
  else st

/-- The max hold stage (src/main.cpp:858-874), symmetric to the min stage. -/
def calibPhaseHoldMax (initial : Int) (es : List HoldEvent) (st : CalibLoopSt) : CalibLoopSt :=
  if st.success then
    let hs := captureHoldRun false initial es
    let capturedMax := captureHoldValue false initial es
    let q := st.quit || hs.quitFlag
    if capturedMax = -1 ∧ q = true then ⟨q, false, st.cfg⟩
    else ⟨q, st.success, { st.cfg with calibrationMaxHid := capturedMax }⟩
  else st

/-- The tail of `PerformCalibration` (src/main.cpp:877-899): abort on quit or
failure; otherwise swap an inverted range, and only then set
`calibrationDone`. -/
def calibFinish (st : CalibLoopSt) : CalibResult :=
  if st.quit then ⟨false, st.cfg⟩
  else if st.success = false then ⟨false, st.cfg⟩
  else
    let cfg := st.cfg
    let cfg2 :=
      if cfg.calibrationMaxHid < cfg.calibrationMinHid then
        { cfg with calibrationMinHid := cfg.calibrationMaxHid,
                   calibrationMaxHid := cfg.calibrationMinHid }
      else cfg
    ⟨true, { cfg2 with calibrationDone := true }⟩

/-- `PerformCalibration` (src/main.cpp:657-900): an immediate no-op success
for buttons; otherwise the min countdown and hold, the max countdown and
hold, and the finishing checks, with `g_quitFlag` sticky throughout. -/
def performCalibration (isButton : Bool) (c0 : CalibConfigState) (sc : CalibScript) :
    CalibResult :=
  if isButton then ⟨true, c0⟩
  else
    calibFinish
      (calibPhaseHoldMax sc.currentAtHoldMax sc.holdMaxEvents
        (calibPhaseCountdown sc.quitInCountdownMax
          (calibPhaseRecheck
            (calibPhaseHoldMin sc.currentAtHoldMin sc.holdMinEvents
              (calibPhaseCountdown sc.quitInCountdownMin
                ⟨sc.quitBeforeMin, !sc.quitBeforeMin, c0⟩)))))

/-- Concrete axis→CC mapping used by the specification examples:
`minRaw = 0`, `maxRaw = 1000`, calibration done. -/
def testAxisCfg (rev : Bool) : Config :=
  { isButton := false, midiMessageType := MidiMessageType.CC, midiChannel := 0,
    midiNoteOrCCNumber := 1, midiValueNoteOnVelocity := 64, midiValueCCOn := 127,
    midiValueCCOff := 0, calibrationMinHid := 0, calibrationMaxHid := 1000,
    calibrationDone := true, reverseAxis := rev, midiSendIntervalMs := 10 }

/-- Concrete button→NoteOnOff mapping: channel 0, note 60, velocity 100. -/
def testNoteCfg : Config :=
  { isButton := true, midiMessageType := MidiMessageType.NOTE_ON_OFF, midiChannel := 0,
    midiNoteOrCCNumber := 60, midiValueNoteOnVelocity := 100, midiValueCCOn := 127,
    midiValueCCOff := 0, calibrationMinHid := 0, calibrationMaxHid := 0,
    calibrationDone := false, reverseAxis := false, midiSendIntervalMs := 10 }

/-- Concrete button→CC mapping: channel 0, CC 7, on-value 5, off-value 0. -/
def testCCButtonCfg : Config :=
  { testNoteCfg with midiMessageType := MidiMessageType.CC,
                     midiNoteOrCCNumber := 7, midiValueCCOn := 5 }

/-- Calibration run capturing 800 during the min hold and 200 during the max
hold, with no quit anywhere. -/
def swapTestScript : CalibScript :=
  ⟨false, false, 0, [HoldEvent.samples [800]], false, 0, [HoldEvent.samples [200]]⟩

/-- Monitoring-loop trace for the rate-limiting example: a change to raw 100
at t = 0 ms, a second change to raw 200 at t = 5 ms, and a bare tick at
t = 10 ms (`midiSendIntervalMs = 10`). -/
def rateTestTicks : List Tick := [⟨0, [100]⟩, ⟨5, [200]⟩, ⟨10, []⟩]

/-- The axis→CC value always lies at or above 0. -/
lemma axisMidiValue_nonneg (cfg : Config) (v : Int) : 0 ≤ axisMidiValue cfg v :=
  le_max_left 0 _

/-- C1 (amended): for an axis control mapped to CC, no message is emitted
while `calibrationDone` is false; with `calibrationDone` true the emitted
value is `axisMidiValue` (clamp, normalize — with the degenerate at/above
rule — optional inversion, scale by 127 with round-half-up, clamp to
`[0, 127]`), which coincides with the specification formula whenever
`calibrationMinHid ≤ calibrationMaxHid`, and a CC message is emitted exactly
when that value differs from `lastSentMidiValue`.  With `minRaw = 0`,
`maxRaw = 1000` the raws 0/500/1000 map to 0/64/127 forward and to 127/64/0
reversed (the reversed midpoint is 64, not the claimed 63). -/
theorem C1_axis_cc_mapping (cfg : Config) (s : SendState)
    (hb : cfg.isButton = false) (ht : cfg.midiMessageType = MidiMessageType.CC) :
    (cfg.calibrationDone = false → sendMidiMessage cfg s = ([], s.lastSentMidiValue)) ∧
    (cfg.calibrationDone = true →
      sendMidiMessage cfg s =
        if axisMidiValue cfg s.currentValue = s.lastSentMidiValue then
          ([], s.lastSentMidiValue)
        else
          ([⟨0xB0 + mask4 cfg.midiChannel, mask7 cfg.midiNoteOrCCNumber,
             (axisMidiValue cfg s.currentValue).toNat⟩], axisMidiValue cfg s.currentValue)) ∧
    (cfg.calibrationMinHid ≤ cfg.calibrationMaxHid →
      axisMidiValue cfg s.currentValue = axisMidiSpecValue cfg s.currentValue) ∧
    axisMidiValue (testAxisCfg false) 0 = 0 ∧
    axisMidiValue (testAxisCfg false) 500 = 64 ∧
    axisMidiValue (testAxisCfg false) 1000 = 127 ∧
    axisMidiValue (testAxisCfg true) 0 = 127 ∧
    axisMidiValue (testAxisCfg true) 500 = 64 ∧
    axisMidiValue (testAxisCfg true) 1000 = 0 := by
  refine ⟨?_, ?_, ?_, ?_, ?_, ?_, ?_, ?_, ?_⟩
  · intro hdone
    simp [sendMidiMessage, hb, ht, hdone]
  · intro hdone
    by_cases hv : axisMidiValue cfg s.currentValue = s.lastSentMidiValue
    · simp [sendMidiMessage, hb, ht, hdone, hv]
    · simp [sendMidiMessage, hb, ht, hdone, hv]
  · intro hle
    rcases eq_or_lt_of_le hle with heq | hlt
    · simp [axisMidiValue, axisMidiSpecValue, heq]
    · have h1 : (0 : Int) < cfg.calibrationMaxHid - cfg.calibrationMinHid := by omega
      have h2 : ¬ cfg.calibrationMaxHid = cfg.calibrationMinHid := by omega
      simp [axisMidiValue, axisMidiSpecValue, h1, h2]
  all_goals norm_num [axisMidiValue, testAxisCfg]

/-- C1 counterexample: with `minRaw = 0`, `maxRaw = 1000`,
`reverseAxis = true`, raw 500 maps to MIDI 64 — the code computes
`floor((1 - 0.5) * 127 + 0.5) = 64` — and not to 63 as the claim states. -/
theorem C1_reversed_midpoint_counterexample :
    axisMidiValue (testAxisCfg true) 500 = 64 ∧ axisMidiValue (testAxisCfg true) 500 ≠ 63 := by
  norm_num [axisMidiValue, testAxisCfg]

/-- C1 witness: a calibrated axis at raw 500 with no value sent yet emits one
CC message with value 64. -/
theorem C1_axis_cc_mapping_witness :
    sendMidiMessage (testAxisCfg false) ⟨500, 0, -1⟩ = ([⟨0xB0, 1, 64⟩], 64) := by
  have h := C1_axis_cc_mapping (testAxisCfg false) ⟨500, 0, -1⟩ rfl rfl
  have h64 : axisMidiValue (testAxisCfg false) 500 = 64 := h.2.2.2.2.1
  rw [h.2.1 rfl]
  norm_num [h64, show mask4 (testAxisCfg false).midiChannel = 0 from rfl,
    show mask7 (testAxisCfg false).midiNoteOrCCNumber = 1 from rfl]
  rfl

/-- C2: a button control is edge-triggered: nothing is emitted when the
pressed state equals the previous pressed state; a released→pressed edge
emits exactly one Note-On (`0x90 | ch`, note, velocity) or one CC with the
on-value; a pressed→released edge emits exactly one Note-Off
(`0x80 | ch`, note, 0) or one CC with the off-value; and the transition
sequence 0,0,1,1,0 produces exactly two messages. -/
theorem C2_button_edge_triggered (cfg : Config) (s : SendState)
    (hb : cfg.isButton = true) (ht : cfg.midiMessageType ≠ MidiMessageType.NONE) :
    ((s.currentValue != 0) = (s.previousValue != 0) → (sendMidiMessage cfg s).1 = []) ∧
    (s.previousValue = 0 → s.currentValue ≠ 0 →
      (sendMidiMessage cfg s).1 =
        (if cfg.midiMessageType = MidiMessageType.NOTE_ON_OFF then
          [⟨0x90 + mask4 cfg.midiChannel, mask7 cfg.midiNoteOrCCNumber,
            mask7 cfg.midiValueNoteOnVelocity⟩]
        else
          [⟨0xB0 + mask4 cfg.midiChannel, mask7 cfg.midiNoteOrCCNumber,
            mask7 cfg.midiValueCCOn⟩])) ∧
    (s.previousValue ≠ 0 → s.currentValue = 0 →
      (sendMidiMessage cfg s).1 =
        (if cfg.midiMessageType = MidiMessageType.NOTE_ON_OFF then
          [⟨0x80 + mask4 cfg.midiChannel, mask7 cfg.midiNoteOrCCNumber, 0⟩]
        else
          [⟨0xB0 + mask4 cfg.midiChannel, mask7 cfg.midiNoteOrCCNumber,
            mask7 cfg.midiValueCCOff⟩])) ∧
    runSamples testNoteCfg ⟨0, 0, -1⟩ [0, 0, 1, 1, 0] = [⟨0x90, 60, 100⟩, ⟨0x80, 60, 0⟩] ∧
    runSamples testCCButtonCfg ⟨0, 0, -1⟩ [0, 0, 1, 1, 0] = [⟨0xB0, 7, 5⟩, ⟨0xB0, 7, 0⟩] := by
  refine ⟨?_, ?_, ?_, by decide, by decide⟩
  · intro hsame
    cases htype : cfg.midiMessageType <;> simp [sendMidiMessage, hb, hsame, htype]
  · intro hp hc
    cases htype : cfg.midiMessageType
    · exact absurd htype ht
    · simp [sendMidiMessage, hb, htype, hp, hc, bne_iff_ne]
    · simp [sendMidiMessage, hb, htype, hp, hc, bne_iff_ne]
  · intro hp hc
    cases htype : cfg.midiMessageType
    · exact absurd htype ht
    · simp [sendMidiMessage, hb, htype, hp, hc, bne_iff_ne]
    · simp [sendMidiMessage, hb, htype, hp, hc, bne_iff_ne]

/-- C2 witness: a released→pressed edge on the Note mapping emits exactly the
Note-On message. -/
theorem C2_button_edge_triggered_witness :
    (sendMidiMessage testNoteCfg ⟨1, 0, -1⟩).1 = [⟨0x90, 60, 100⟩] := by
  have h := (C2_button_edge_triggered testNoteCfg ⟨1, 0, -1⟩ rfl (by decide)).2.1 rfl
    (by decide)
  simpa [testNoteCfg, mask4, mask7] using h

/-- C3 (amended): a Note On/Off button message resets `lastSentMidiValue` to
the never-sent sentinel `-1`; a CC button message instead stores the CC value
just sent; on the axis path `lastSentMidiValue` is unchanged when no message
is emitted and set to the computed value when one is. -/
theorem C3_last_sent_value_updates (cfg : Config) (s : SendState) :
    (cfg.isButton = true → cfg.midiMessageType = MidiMessageType.NOTE_ON_OFF →
      (sendMidiMessage cfg s).1 ≠ [] → (sendMidiMessage cfg s).2 = -1) ∧
    (cfg.isButton = true → cfg.midiMessageType = MidiMessageType.CC →
      (sendMidiMessage cfg s).1 ≠ [] →
      (sendMidiMessage cfg s).2 =
        (mask7 (if s.currentValue != 0 then cfg.midiValueCCOn else cfg.midiValueCCOff) : Int)) ∧
    (cfg.isButton = false → (sendMidiMessage cfg s).1 = [] →
      (sendMidiMessage cfg s).2 = s.lastSentMidiValue) ∧
    (cfg.isButton = false → (sendMidiMessage cfg s).1 ≠ [] →
      (sendMidiMessage cfg s).2 = axisMidiValue cfg s.currentValue) := by
  refine ⟨?_, ?_, ?_, ?_⟩
  · intro hb htype hne
    by_cases hcur : s.currentValue = 0
    · by_cases hprev : s.previousValue = 0
      · have b1 : (s.currentValue != 0) = false := by simp [hcur]
        have b2 : (s.previousValue != 0) = false := by simp [hprev]
        simp [sendMidiMessage, hb, htype, b1, b2] at hne
      · have b1 : (s.currentValue != 0) = false := by simp [hcur]
        have b2 : (s.previousValue != 0) = true := by simp [hprev, bne_iff_ne]
        simp [sendMidiMessage, hb, htype, b1, b2]
    · by_cases hprev : s.previousValue = 0
      · have b1 : (s.currentValue != 0) = true := by simp [hcur, bne_iff_ne]
        have b2 : (s.previousValue != 0) = false := by simp [hprev]
        simp [sendMidiMessage, hb, htype, b1, b2]
      · have b1 : (s.currentValue != 0) = true := by simp [hcur, bne_iff_ne]
        have b2 : (s.previousValue != 0) = true := by simp [hprev, bne_iff_ne]
        simp [sendMidiMessage, hb, htype, b1, b2] at hne
  · intro hb htype hne
    by_cases hcur : s.currentValue = 0
    · by_cases hprev : s.previousValue = 0
      · have b1 : (s.currentValue != 0) = false := by simp [hcur]
        have b2 : (s.previousValue != 0) = false := by simp [hprev]
        simp [sendMidiMessage, hb, htype, b1, b2] at hne
      · have b1 : (s.currentValue != 0) = false := by simp [hcur]
        have b2 : (s.previousValue != 0) = true := by simp [hprev, bne_iff_ne]
        simp [sendMidiMessage, hb, htype, b1, b2]
    · by_cases hprev : s.previousValue = 0
      · have b1 : (s.currentValue != 0) = true := by simp [hcur, bne_iff_ne]
        have b2 : (s.previousValue != 0) = false := by simp [hprev]
        simp [sendMidiMessage, hb, htype, b1, b2]
      · have b1 : (s.currentValue != 0) = true := by simp [hcur, bne_iff_ne]
        have b2 : (s.previousValue != 0) = true := by simp [hprev, bne_iff_ne]
        simp [sendMidiMessage, hb, htype, b1, b2] at hne
  · intro hb hempty
    cases htype : cfg.midiMessageType
    · simp [sendMidiMessage, htype]
    · simp [sendMidiMessage, hb, htype]
    · by_cases hdone : cfg.calibrationDone = true
      · by_cases hv : axisMidiValue cfg s.currentValue = s.lastSentMidiValue
        · simp [sendMidiMessage, hb, htype, hdone, hv]
        · simp [sendMidiMessage, hb, htype, hdone, hv] at hempty
      · simp [sendMidiMessage, hb, htype, hdone]
  · intro hb hne
    cases htype : cfg.midiMessageType
    · simp [sendMidiMessage, htype] at hne
    · simp [sendMidiMessage, hb, htype] at hne
    · by_cases hdone : cfg.calibrationDone = true
      · by_cases hv : axisMidiValue cfg s.currentValue = s.lastSentMidiValue
        · simp [sendMidiMessage, hb, htype, hdone, hv] at hne
        · simp [sendMidiMessage, hb, htype, hdone, hv]
      · simp [sendMidiMessage, hb, htype, hdone] at hne

/-- C3 counterexample: a CC button press (on-value 5) does send a message,
yet `lastSentMidiValue` becomes 5, not the never-sent sentinel -1 — so a
button message of Control Change kind does not reset the sentinel. -/
theorem C3_cc_button_counterexample :
    (sendMidiMessage testCCButtonCfg ⟨1, 0, -1⟩).1 ≠ [] ∧
    (sendMidiMessage testCCButtonCfg ⟨1, 0, -1⟩).2 = 5 ∧
    (sendMidiMessage testCCButtonCfg ⟨1, 0, -1⟩).2 ≠ -1 := by decide

/-- C3 witness: a Note-On press resets `lastSentMidiValue` to -1. -/
theorem C3_last_sent_value_updates_witness :
    (sendMidiMessage testNoteCfg ⟨1, 0, 7⟩).2 = -1 :=
  (C3_last_sent_value_updates testNoteCfg ⟨1, 0, 7⟩).1 rfl rfl (by decide)

/-- C9: the shutdown reset sequence contains, for every MIDI channel
0 through 15, the three 3-byte Control Change messages CC 120 (All Sound
Off), CC 121 (Reset All Controllers) and CC 123 (All Notes Off), each with
status `0xB0 | channel` and data value 0, all enqueued before the port is
closed. -/
theorem C9_shutdown_reset_messages (ch : Nat) (hch : ch < 16) :
    (⟨0xB0 ||| ch, 120, 0⟩ : MidiMsg) ∈ shutdownMidiMessages ∧
    (⟨0xB0 ||| ch, 121, 0⟩ : MidiMsg) ∈ shutdownMidiMessages ∧
    (⟨0xB0 ||| ch, 123, 0⟩ : MidiMsg) ∈ shutdownMidiMessages := by
  interval_cases ch <;> exact ⟨by decide, by decide, by decide⟩

/-- C9 witness: the three reset messages for channel 0 are in the shutdown
sequence. -/
theorem C9_shutdown_reset_messages_witness :
    (⟨0xB0, 120, 0⟩ : MidiMsg) ∈ shutdownMidiMessages ∧
    (⟨0xB0, 121, 0⟩ : MidiMsg) ∈ shutdownMidiMessages ∧
    (⟨0xB0, 123, 0⟩ : MidiMsg) ∈ shutdownMidiMessages :=
  C9_shutdown_reset_messages 0 (by decide)

/-- C10: at monitoring start the loop state has `previousValue = current`,
`lastSentMidiValue = -1`, the change flag forced on, and the last-send time
backdated by one send interval; hence the first tick runs the mapper with no
input change: a calibrated axis mapped to CC emits exactly one CC encoding
the current position, while a button emits nothing. -/
theorem C10_monitor_start (cfg : Config) (current now : Int) :
    (initLoopState cfg current now).previousValue = current ∧
    (initLoopState cfg current now).lastSentMidiValue = -1 ∧
    (initLoopState cfg current now).valueChanged = true ∧
    (initLoopState cfg current now).lastMidiSendTime = now - intervalMs cfg ∧
    (cfg.isButton = false → cfg.midiMessageType = MidiMessageType.CC →
      cfg.calibrationDone = true →
      (loopTick cfg (initLoopState cfg current now) ⟨now, []⟩).2 =
        [⟨0xB0 + mask4 cfg.midiChannel, mask7 cfg.midiNoteOrCCNumber,
          (axisMidiValue cfg current).toNat⟩]) ∧
    (cfg.isButton = true → (loopTick cfg (initLoopState cfg current now) ⟨now, []⟩).2 = []) := by
  refine ⟨rfl, rfl, rfl, rfl, ?_, ?_⟩
  · intro hb ht hdone
    have hcond : intervalMs cfg ≤ now - (now - intervalMs cfg) := by omega
    have hne : axisMidiValue cfg current ≠ -1 := by
      have := axisMidiValue_nonneg cfg current
      omega
    simp [loopTick, initLoopState, sendMidiMessage, hb, ht, hdone, hcond, hne]
  · intro hb
    have hcond : intervalMs cfg ≤ now - (now - intervalMs cfg) := by omega
    cases htype : cfg.midiMessageType <;>
      simp [loopTick, initLoopState, sendMidiMessage, hb, htype, hcond]

/-- C5: the decode path sets the change flag exactly when the newly decoded
sample differs from the stored `g_currentValue` (so a repeated identical
sample is a no-op and two consecutive identical samples raise at most one
pending change), and the monitoring loop consumes the flag as one
test-and-clear step: when the send condition fails the tick leaves the flag
(and the whole state) untouched and emits nothing, and when it holds the
tick hands the pending state to `SendMidiMessage` and only then clears the
flag. -/
theorem C5_change_flag_semantics (cfg : Config) (s : LoopState) (v : Int) (t : Tick) :
    (procSample s v).valueChanged = (s.valueChanged || (v != s.currentValue)) ∧
    procSample (procSample s v) v = procSample s v ∧
    (¬ ((t.samples.foldl procSample s).valueChanged = true ∧
        intervalMs cfg ≤ t.time - (t.samples.foldl procSample s).lastMidiSendTime) →
      loopTick cfg s t = (t.samples.foldl procSample s, [])) ∧
    (((t.samples.foldl procSample s).valueChanged = true ∧
        intervalMs cfg ≤ t.time - (t.samples.foldl procSample s).lastMidiSendTime) →
      (loopTick cfg s t).2 =
        (sendMidiMessage cfg ⟨(t.samples.foldl procSample s).currentValue,
          (t.samples.foldl procSample s).previousValue,
          (t.samples.foldl procSample s).lastSentMidiValue⟩).1 ∧
      (loopTick cfg s t).1.valueChanged = false) := by
  refine ⟨?_, ?_, ?_, ?_⟩
  · by_cases h : v = s.currentValue
    · simp [procSample, h]
    · have hb : (v != s.currentValue) = true := by simp [bne_iff_ne, h]
      simp [procSample, h, hb]
  · by_cases h : v = s.currentValue <;> simp [procSample, h]
  · intro hnot
    simp only [loopTick]
    rw [if_neg hnot]
  · intro hyes
    simp only [loopTick]
    rw [if_pos hyes]
    exact ⟨rfl, rfl⟩

/-- C5 witness: a tick without an armed change flag leaves the state
unchanged and sends nothing. -/
theorem C5_change_flag_semantics_witness :
    loopTick testNoteCfg ⟨0, 0, false, 0, 0⟩ ⟨0, []⟩ = (⟨0, 0, false, 0, 0⟩, []) :=
  (C5_change_flag_semantics testNoteCfg ⟨0, 0, false, 0, 0⟩ 5 ⟨0, []⟩).2.2.1 (by decide)

/-- If `calibFinish` reports success then the final range is ordered and the
done flag was set. -/
lemma calibFinish_ok (st : CalibLoopSt) (h : (calibFinish st).ok = true) :
    (calibFinish st).cfg.calibrationMinHid ≤ (calibFinish st).cfg.calibrationMaxHid ∧
    (calibFinish st).cfg.calibrationDone = true := by
  by_cases hq : st.quit = true
  · simp [calibFinish, hq] at h
  · by_cases hs : st.success = false
    · simp [calibFinish, hq, hs] at h
    · by_cases hc : st.cfg.calibrationMaxHid < st.cfg.calibrationMinHid
      · refine ⟨?_, ?_⟩ <;> simp [calibFinish, hq, hs, hc]
        omega
      · refine ⟨?_, ?_⟩ <;> simp [calibFinish, hq, hs, hc]
        omega

/-- C7: whenever `PerformCalibration` succeeds, the final calibration range
satisfies `calibrationMinHid ≤ calibrationMaxHid` (an inverted capture is
swapped, an equal capture is kept) and `calibrationDone` is set; capturing
800 during the min hold and 200 during the max hold ends with the swapped
state `min = 200`, `max = 800`, `done = true`. -/
theorem C7_swap_and_done_invariant (c0 : CalibConfigState) (sc : CalibScript)
    (hok : (performCalibration false c0 sc).ok = true) :
    ((performCalibration false c0 sc).cfg.calibrationMinHid ≤
        (performCalibration false c0 sc).cfg.calibrationMaxHid ∧
      (performCalibration false c0 sc).cfg.calibrationDone = true) ∧
    performCalibration false ⟨0, 0, false⟩ swapTestScript =
      ⟨true, ⟨200, 800, true⟩⟩ := by
  exact ⟨calibFinish_ok _ hok, by decide⟩

/-- C7 witness: the inverted capture 800/200 completes with the swapped,
done state. -/
theorem C7_swap_and_done_invariant_witness :
    performCalibration false ⟨0, 0, false⟩ swapTestScript = ⟨true, ⟨200, 800, true⟩⟩ :=
  (C7_swap_and_done_invariant ⟨0, 0, false⟩ swapTestScript (by decide)).2

/-- C10 witness: starting monitoring at raw value 500 with the example axis
mapping, the first tick emits one CC with value 64. -/
theorem C10_monitor_start_witness :
    (loopTick (testAxisCfg false) (initLoopState (testAxisCfg false) 500 0) ⟨0, []⟩).2 =
      [⟨0xB0, 1, 64⟩] := by
  have h := (C10_monitor_start (testAxisCfg false) 500 0).2.2.2.2.1 rfl rfl rfl
  rw [h]
  norm_num [mask4, mask7, axisMidiValue, testAxisCfg]
  rfl

/-- A `holdSample` fold only touches `currentValue` and `valueChanged`. -/
lemma holdSample_foldl_invariants (vs : List Int) : ∀ (s : HoldState),
    (vs.foldl holdSample s).extremeValue = s.extremeValue ∧
    (vs.foldl holdSample s).valueCaptured = s.valueCaptured ∧
    (vs.foldl holdSample s).quitFlag = s.quitFlag := by
  induction vs with
  | nil => intro s; exact ⟨rfl, rfl, rfl⟩
  | cons v vs ih =>
    intro s
    rw [List.foldl_cons]
    rcases ih (holdSample s v) with ⟨h1, h2, h3⟩
    refine ⟨h1.trans ?_, h2.trans ?_, h3.trans ?_⟩ <;>
      by_cases h : v = s.currentValue <;> simp [holdSample, h]

/-- A samples iteration of the hold loop never touches the quit flag. -/
lemma holdStep_samples_quitFlag (m : Bool) (s : HoldState) (vs : List Int) :
    (holdStep m s (HoldEvent.samples vs)).quitFlag = s.quitFlag := by
  by_cases hq : s.quitFlag = true
  · simp [holdStep, hq]
  · have h3 := (holdSample_foldl_invariants vs s).2.2
    by_cases hc : (vs.foldl holdSample s).valueChanged = true <;>
      simp [holdStep, hq, hc, h3]

/-- The hold loop ends with the quit flag up exactly when it started with it
up or some event was the quit signal. -/
lemma holdStep_foldl_quitFlag (m : Bool) : ∀ (es : List HoldEvent) (s : HoldState),
    (es.foldl (holdStep m) s).quitFlag = (s.quitFlag || es.any HoldEvent.isQuit) := by
  intro es
  induction es with
  | nil => intro s; simp
  | cons e es ih =>
    intro s
    rw [List.foldl_cons, ih, List.any_cons]
    by_cases hq : s.quitFlag = true
    · have hstep : (holdStep m s e).quitFlag = true := by
        cases e
        · simp [holdStep, hq]
        · rw [holdStep_samples_quitFlag]; exact hq
      rw [hstep, hq]
      simp
    · cases e
      · simp [holdStep, hq, HoldEvent.isQuit]
      · rw [holdStep_samples_quitFlag]
        simp [HoldEvent.isQuit]

/-- `captureHoldRun` raises the quit flag exactly when a quit event occurred. -/
lemma captureHoldRun_quitFlag (m : Bool) (i : Int) (es : List HoldEvent) :
    (captureHoldRun m i es).quitFlag = es.any HoldEvent.isQuit := by
  unfold captureHoldRun
  rw [holdStep_foldl_quitFlag]
  simp

/-- A countdown phase is a no-op once `success` is false. -/
lemma calibPhaseCountdown_absorb (quitIn : Bool) (st : CalibLoopSt)
    (h : st.success = false) : calibPhaseCountdown quitIn st = st := by
  simp [calibPhaseCountdown, h]

/-- The quit re-check is a no-op once `success` is false. -/
lemma calibPhaseRecheck_absorb (st : CalibLoopSt) (h : st.success = false) :
    calibPhaseRecheck st = st := by
  simp [calibPhaseRecheck, h]

/-- The min hold phase is a no-op once `success` is false. -/
lemma calibPhaseHoldMin_absorb (initial : Int) (es : List HoldEvent) (st : CalibLoopSt)
    (h : st.success = false) : calibPhaseHoldMin initial es st = st := by
  simp [calibPhaseHoldMin, h]

/-- The max hold phase is a no-op once `success` is false. -/
lemma calibPhaseHoldMax_absorb (initial : Int) (es : List HoldEvent) (st : CalibLoopSt)
    (h : st.success = false) : calibPhaseHoldMax initial es st = st := by
  simp [calibPhaseHoldMax, h]

/-- The sticky quit flag survives a countdown phase. -/
lemma calibPhaseCountdown_quit (quitIn : Bool) (st : CalibLoopSt) (h : st.quit = true) :
    (calibPhaseCountdown quitIn st).quit = true := by
  by_cases hs : st.success = true <;> simp [calibPhaseCountdown, hs, h]

/-- The sticky quit flag survives the re-check. -/
lemma calibPhaseRecheck_quit (st : CalibLoopSt) (h : st.quit = true) :
    (calibPhaseRecheck st).quit = true := by
  by_cases hs : st.success = true <;> simp [calibPhaseRecheck, hs, h]

/-- The sticky quit flag survives the min hold phase. -/
lemma calibPhaseHoldMin_quit (initial : Int) (es : List HoldEvent) (st : CalibLoopSt)
    (h : st.quit = true) : (calibPhaseHoldMin initial es st).quit = true := by
  unfold calibPhaseHoldMin
  split
  · dsimp only
    split
    · simp [h]
    · simp [h]
  · exact h

/-- The sticky quit flag survives the max hold phase. -/
lemma calibPhaseHoldMax_quit (initial : Int) (es : List HoldEvent) (st : CalibLoopSt)
    (h : st.quit = true) : (calibPhaseHoldMax initial es st).quit = true := by
  unfold calibPhaseHoldMax
  split
  · dsimp only
    split
    · simp [h]
    · simp [h]
  · exact h

/-- A quit during a countdown leaves the phase with `success` false. -/
lemma calibPhaseCountdown_fail (quitIn : Bool) (st : CalibLoopSt) (h : quitIn = true) :
    (calibPhaseCountdown quitIn st).success = false := by
  by_cases hs : st.success = true
  · simp [calibPhaseCountdown, hs, h]
  · simp [calibPhaseCountdown, hs]

/-- A quit event during the min hold leaves the phase with `success` false. -/
lemma calibPhaseHoldMin_fail (initial : Int) (es : List HoldEvent) (st : CalibLoopSt)
    (h : es.any HoldEvent.isQuit = true) :
    (calibPhaseHoldMin initial es st).success = false := by
  by_cases hs : st.success = true
  · have hq : (captureHoldRun true initial es).quitFlag = true := by
      rw [captureHoldRun_quitFlag]; exact h
    have hv : captureHoldValue true initial es = -1 := by
      unfold captureHoldValue
      rw [if_pos hq]
    simp [calibPhaseHoldMin, hs, hq, hv]
  · simp [calibPhaseHoldMin, hs]

/-- A quit event during the max hold leaves the phase with `success` false. -/
lemma calibPhaseHoldMax_fail (initial : Int) (es : List HoldEvent) (st : CalibLoopSt)
    (h : es.any HoldEvent.isQuit = true) :
    (calibPhaseHoldMax initial es st).success = false := by
  by_cases hs : st.success = true
  · have hq : (captureHoldRun false initial es).quitFlag = true := by
      rw [captureHoldRun_quitFlag]; exact h
    have hv : captureHoldValue false initial es = -1 := by
      unfold captureHoldValue
      rw [if_pos hq]
    simp [calibPhaseHoldMax, hs, hq, hv]
  · simp [calibPhaseHoldMax, hs]

/-- No phase ever touches `calibrationDone`. -/
lemma calibPhaseCountdown_done (quitIn : Bool) (st : CalibLoopSt) :
    (calibPhaseCountdown quitIn st).cfg.calibrationDone = st.cfg.calibrationDone := by
  by_cases hs : st.success = true <;> simp [calibPhaseCountdown, hs]

/-- The re-check never touches `calibrationDone`. -/
lemma calibPhaseRecheck_done (st : CalibLoopSt) :
    (calibPhaseRecheck st).cfg.calibrationDone = st.cfg.calibrationDone := by
  by_cases hs : st.success = true
  · by_cases hq : st.quit = true <;> simp [calibPhaseRecheck, hs, hq]
  · simp [calibPhaseRecheck, hs]

/-- The min hold phase never touches `calibrationDone`. -/
lemma calibPhaseHoldMin_done (initial : Int) (es : List HoldEvent) (st : CalibLoopSt) :
    (calibPhaseHoldMin initial es st).cfg.calibrationDone = st.cfg.calibrationDone := by
  unfold calibPhaseHoldMin
  split
  · dsimp only
    split <;> rfl
  · rfl

/-- The max hold phase never touches `calibrationDone`. -/
lemma calibPhaseHoldMax_done (initial : Int) (es : List HoldEvent) (st : CalibLoopSt) :
    (calibPhaseHoldMax initial es st).cfg.calibrationDone = st.cfg.calibrationDone := by
  unfold calibPhaseHoldMax
  split
  · dsimp only
    split <;> rfl
  · rfl

/-- On quit or failure the finish step reports failure and keeps the config
fields as the phases left them. -/
lemma calibFinish_abort (st : CalibLoopSt) (h : st.quit = true ∨ st.success = false) :
    calibFinish st = ⟨false, st.cfg⟩ := by
  rcases h with h | h
  · simp [calibFinish, h]
  · by_cases hq : st.quit = true <;> simp [calibFinish, hq, h]

/-- C6: if the global quit flag is raised at any point of the calibration
protocol — before the min countdown, during either countdown, or by a quit
event during either hold — then `PerformCalibration` returns failure and the
`calibrationDone` field keeps its prior (false) value on every such aborted
path. -/
theorem C6_quit_aborts (c0 : CalibConfigState) (sc : CalibScript)
    (hdone : c0.calibrationDone = false)
    (hquit : sc.quitBeforeMin = true ∨ sc.quitInCountdownMin = true ∨
      sc.holdMinEvents.any HoldEvent.isQuit = true ∨ sc.quitInCountdownMax = true ∨
      sc.holdMaxEvents.any HoldEvent.isQuit = true) :
    (performCalibration false c0 sc).ok = false ∧
    (performCalibration false c0 sc).cfg.calibrationDone = false := by
  have hpc : performCalibration false c0 sc =
      calibFinish (calibPhaseHoldMax sc.currentAtHoldMax sc.holdMaxEvents
        (calibPhaseCountdown sc.quitInCountdownMax
          (calibPhaseRecheck
            (calibPhaseHoldMin sc.currentAtHoldMin sc.holdMinEvents
              (calibPhaseCountdown sc.quitInCountdownMin
                ⟨sc.quitBeforeMin, !sc.quitBeforeMin, c0⟩))))) := rfl
  have habort : (calibPhaseHoldMax sc.currentAtHoldMax sc.holdMaxEvents
        (calibPhaseCountdown sc.quitInCountdownMax
          (calibPhaseRecheck
            (calibPhaseHoldMin sc.currentAtHoldMin sc.holdMinEvents
              (calibPhaseCountdown sc.quitInCountdownMin
                ⟨sc.quitBeforeMin, !sc.quitBeforeMin, c0⟩))))).quit = true ∨
      (calibPhaseHoldMax sc.currentAtHoldMax sc.holdMaxEvents
        (calibPhaseCountdown sc.quitInCountdownMax
          (calibPhaseRecheck
            (calibPhaseHoldMin sc.currentAtHoldMin sc.holdMinEvents
              (calibPhaseCountdown sc.quitInCountdownMin
                ⟨sc.quitBeforeMin, !sc.quitBeforeMin, c0⟩))))).success = false := by
    rcases hquit with h | h | h | h | h
    · left
      exact calibPhaseHoldMax_quit _ _ _
        (calibPhaseCountdown_quit _ _
          (calibPhaseRecheck_quit _
            (calibPhaseHoldMin_quit _ _ _
              (calibPhaseCountdown_quit _ _ h))))
    · right
      have h2 : (calibPhaseCountdown sc.quitInCountdownMin
          ⟨sc.quitBeforeMin, !sc.quitBeforeMin, c0⟩).success = false :=
        calibPhaseCountdown_fail _ _ h
      rw [calibPhaseHoldMin_absorb _ _ _ h2, calibPhaseRecheck_absorb _ h2,
        calibPhaseCountdown_absorb _ _ h2, calibPhaseHoldMax_absorb _ _ _ h2]
      exact h2
    · right
      have h3 : (calibPhaseHoldMin sc.currentAtHoldMin sc.holdMinEvents
          (calibPhaseCountdown sc.quitInCountdownMin
            ⟨sc.quitBeforeMin, !sc.quitBeforeMin, c0⟩)).success = false :=
        calibPhaseHoldMin_fail _ _ _ h
      rw [calibPhaseRecheck_absorb _ h3, calibPhaseCountdown_absorb _ _ h3,
        calibPhaseHoldMax_absorb _ _ _ h3]
      exact h3
    · right
      have h5 : (calibPhaseCountdown sc.quitInCountdownMax
          (calibPhaseRecheck
            (calibPhaseHoldMin sc.currentAtHoldMin sc.holdMinEvents
              (calibPhaseCountdown sc.quitInCountdownMin
                ⟨sc.quitBeforeMin, !sc.quitBeforeMin, c0⟩)))).success = false :=
        calibPhaseCountdown_fail _ _ h
      rw [calibPhaseHoldMax_absorb _ _ _ h5]
      exact h5
    · right
      exact calibPhaseHoldMax_fail _ _ _ h
  rw [hpc, calibFinish_abort _ habort]
  refine ⟨rfl, ?_⟩
  show (calibPhaseHoldMax sc.currentAtHoldMax sc.holdMaxEvents
      (calibPhaseCountdown sc.quitInCountdownMax
        (calibPhaseRecheck
          (calibPhaseHoldMin sc.currentAtHoldMin sc.holdMinEvents
            (calibPhaseCountdown sc.quitInCountdownMin
              ⟨sc.quitBeforeMin, !sc.quitBeforeMin, c0⟩))))).cfg.calibrationDone = false
  rw [calibPhaseHoldMax_done, calibPhaseCountdown_done, calibPhaseRecheck_done,
    calibPhaseHoldMin_done, calibPhaseCountdown_done]
  exact hdone

/-- `captureHoldRun` unfolded to its defining fold. -/
lemma captureHoldRun_def (m : Bool) (i : Int) (es : List HoldEvent) :
    captureHoldRun m i es =
      es.foldl (holdStep m) ⟨i, false, if m then LONG_MAX else LONG_MIN, false, false⟩ := rfl

/-- Projections of a `holdSample` fold onto the value/flag pair. -/
lemma holdSample_foldl_pair (vs : List Int) : ∀ (s : HoldState),
    ((vs.foldl holdSample s).currentValue, (vs.foldl holdSample s).valueChanged) =
      vs.foldl pumpSample (s.currentValue, s.valueChanged) := by
  induction vs with
  | nil => intro s; rfl
  | cons v vs ih =>
    intro s
    rw [List.foldl_cons, List.foldl_cons, ih (holdSample s v)]
    by_cases h : v = s.currentValue <;> simp [holdSample, pumpSample, h]

/-- Running the hold loop over quit-free events: the extreme accumulates
`holdExtremeOp` over exactly the observed values, and `valueCaptured` ends up
set exactly when at least one value was observed. -/
lemma captureHoldRun_spec (captureMin : Bool) :
    ∀ (es : List HoldEvent) (s : HoldState), (∀ e ∈ es, e.isQuit = false) →
      s.quitFlag = false →
      (es.foldl (holdStep captureMin) s).extremeValue =
        (holdObservedAux (s.currentValue, s.valueChanged) es).foldl
          (holdExtremeOp captureMin) s.extremeValue ∧
      (es.foldl (holdStep captureMin) s).valueCaptured =
        (s.valueCaptured ||
          !(holdObservedAux (s.currentValue, s.valueChanged) es).isEmpty) := by
  intro es
  induction es with
  | nil => intro s hq hsq; simp [holdObservedAux]
  | cons e es ih =>
    intro s hq hsq
    have hqe := hq e (List.mem_cons_self e es)
    have hqes : ∀ x ∈ es, x.isQuit = false := fun x hx => hq x (List.mem_cons_of_mem e hx)
    cases e with
    | quit => simp [HoldEvent.isQuit] at hqe
    | samples vs =>
      have hinv := holdSample_foldl_invariants vs s
      have hpair := holdSample_foldl_pair vs s
      have hq1 : (vs.foldl holdSample s).quitFlag = false := by rw [hinv.2.2]; exact hsq
      rw [List.foldl_cons]
      by_cases hc : (vs.foldl holdSample s).valueChanged = true
      · have hstep : holdStep captureMin s (HoldEvent.samples vs) =
            { vs.foldl holdSample s with
                extremeValue := holdExtremeOp captureMin
                  (vs.foldl holdSample s).extremeValue
                  (vs.foldl holdSample s).currentValue,
                valueCaptured := true, valueChanged := false } := by
          simp [holdStep, hsq, hc]
        have hobs : holdObservedAux (s.currentValue, s.valueChanged)
              (HoldEvent.samples vs :: es) =
            (vs.foldl holdSample s).currentValue ::
              holdObservedAux ((vs.foldl holdSample s).currentValue, false) es := by
          simp only [holdObservedAux]
          rw [← hpair]
          simp [hc]
        rcases ih { vs.foldl holdSample s with
            extremeValue := holdExtremeOp captureMin (vs.foldl holdSample s).extremeValue
              (vs.foldl holdSample s).currentValue,
            valueCaptured := true, valueChanged := false } hqes (by simpa using hq1) with
          ⟨ihe, ihc⟩
        constructor
        · rw [hstep, ihe, hobs, List.foldl_cons]
          dsimp only
          rw [hinv.1]
        · rw [hstep, ihc, hobs]
          dsimp only
          simp
      · have hcf : (vs.foldl holdSample s).valueChanged = false := by simpa using hc
        have hstep : holdStep captureMin s (HoldEvent.samples vs) = vs.foldl holdSample s := by
          simp [holdStep, hsq, hcf]
        have hobs : holdObservedAux (s.currentValue, s.valueChanged)
              (HoldEvent.samples vs :: es) =
            holdObservedAux ((vs.foldl holdSample s).currentValue,
              (vs.foldl holdSample s).valueChanged) es := by
          simp only [holdObservedAux]
          rw [← hpair]
          simp [hcf]
        rcases ih (vs.foldl holdSample s) hqes hq1 with ⟨ihe, ihc⟩
        constructor
        · rw [hstep, ihe, hobs, hinv.1]
        · rw [hstep, ihc, hobs, hinv.2.1]

/-- `sampleValues` of a samples event is that batch followed by the rest. -/
lemma sampleValues_cons_samples (vs : List Int) (es : List HoldEvent) :
    sampleValues (HoldEvent.samples vs :: es) = vs ++ sampleValues es := by
  simp [sampleValues]

/-- The value of the pump fold is the start value or one of the samples. -/
lemma pumpSample_foldl_mem (vs : List Int) : ∀ (p : Int × Bool),
    (vs.foldl pumpSample p).1 = p.1 ∨ (vs.foldl pumpSample p).1 ∈ vs := by
  induction vs with
  | nil => intro p; exact Or.inl rfl
  | cons v vs ih =>
    intro p
    rw [List.foldl_cons]
    rcases ih (pumpSample p v) with h | h
    · by_cases hv : v = p.1
      · left
        rw [h]
        simp [pumpSample, hv]
      · right
        rw [h]
        simp [pumpSample, hv]
    · right
      exact List.mem_cons_of_mem v h

/-- Everything the hold loop observes is the start value or a delivered
sample. -/
lemma holdObservedAux_mem : ∀ (es : List HoldEvent) (p : Int × Bool) (x : Int),
    x ∈ holdObservedAux p es → x = p.1 ∨ x ∈ sampleValues es := by
  intro es
  induction es with
  | nil => intro p x hx; simp [holdObservedAux] at hx
  | cons e es ih =>
    intro p x hx
    cases e with
    | quit => simp [holdObservedAux] at hx
    | samples vs =>
      simp only [holdObservedAux] at hx
      split at hx
      · rcases List.mem_cons.1 hx with h | h
        · rcases pumpSample_foldl_mem vs p with h2 | h2
          · exact Or.inl (h.trans h2)
          · refine Or.inr ?_
            rw [sampleValues_cons_samples]
            exact List.mem_append_left _ (h ▸ h2)
        · rcases ih ((vs.foldl pumpSample p).1, false) x h with hh | hh
          · rcases pumpSample_foldl_mem vs p with h2 | h2
            · exact Or.inl (hh.trans h2)
            · refine Or.inr ?_
              rw [sampleValues_cons_samples]
              exact List.mem_append_left _ (hh ▸ h2)
          · refine Or.inr ?_
            rw [sampleValues_cons_samples]
            exact List.mem_append_right _ hh
      · rcases ih (vs.foldl pumpSample p) x hx with hh | hh
        · rcases pumpSample_foldl_mem vs p with h2 | h2
          · exact Or.inl (hh.trans h2)
          · refine Or.inr ?_
            rw [sampleValues_cons_samples]
            exact List.mem_append_left _ (hh ▸ h2)
        · refine Or.inr ?_
          rw [sampleValues_cons_samples]
          exact List.mem_append_right _ hh

/-- C8: over a quit-free hold window whose sample values fit in a `LONG`
(as all decoded `LONG` values do), `captureHoldValue` returns the running
minimum (min stage) resp. maximum (max stage) of the observed values when at
least one change event occurred, and falls back to the value current
immediately before the hold began when no change event occurred at all — in
particular a silent window starting at `currentRawValue = 500` captures 500,
never the uninitialized `LONG` sentinel. -/
theorem C8_hold_extremes (captureMin : Bool) (initial : Int) (es : List HoldEvent)
    (hq : ∀ e ∈ es, e.isQuit = false)
    (hinit : LONG_MIN ≤ initial ∧ initial ≤ LONG_MAX)
    (hsamp : ∀ v ∈ sampleValues es, LONG_MIN ≤ v ∧ v ≤ LONG_MAX) :
    (∀ v vs, holdObserved initial es = v :: vs →
      captureHoldValue captureMin initial es = vs.foldl (holdExtremeOp captureMin) v) ∧
    (holdObserved initial es = [] → captureHoldValue captureMin initial es = initial) ∧
    captureHoldValue captureMin 500 [HoldEvent.samples []] = 500 := by
  have hqf : (captureHoldRun captureMin initial es).quitFlag = false := by
    rw [captureHoldRun_quitFlag]
    rw [List.any_eq_false]
    intro e he
    simp [hq e he]
  have hspec := captureHoldRun_spec captureMin es
    ⟨initial, false, if captureMin then LONG_MAX else LONG_MIN, false, false⟩ hq rfl
  rw [← captureHoldRun_def] at hspec
  dsimp only at hspec
  refine ⟨?_, ?_, by cases captureMin <;> decide⟩
  · intro v vs hv
    have hobs : holdObservedAux (initial, false) es = v :: vs := hv
    have hcap : (captureHoldRun captureMin initial es).valueCaptured = true := by
      rw [hspec.2, hobs]
      simp
    have hvmem : v = initial ∨ v ∈ sampleValues es := by
      apply holdObservedAux_mem es (initial, false) v
      rw [hobs]
      exact List.mem_cons_self v vs
    have hvb : LONG_MIN ≤ v ∧ v ≤ LONG_MAX := by
      rcases hvmem with h | h
      · rw [h]; exact hinit
      · exact hsamp v h
    have hsent : holdExtremeOp captureMin (if captureMin then LONG_MAX else LONG_MIN) v = v := by
      cases captureMin
      · simp only [holdExtremeOp, if_neg Bool.false_ne_true, Bool.false_eq_true, if_false]
        exact max_eq_right hvb.1
      · simp only [holdExtremeOp, if_pos rfl]
        exact min_eq_right hvb.2
    simp only [captureHoldValue, hqf, hcap, Bool.false_eq_true, if_false]
    rw [hspec.1, hobs, List.foldl_cons, hsent]
    simp
  · intro hv
    have hobs : holdObservedAux (initial, false) es = [] := hv
    have hcap : (captureHoldRun captureMin initial es).valueCaptured = false := by
      rw [hspec.2, hobs]
      simp
    simp [captureHoldValue, hqf, hcap]

/-- C8 witness: a quit-free hold window with no change events starting at
raw value 500 captures 500. -/
theorem C8_hold_extremes_witness :
    captureHoldValue true 500 [HoldEvent.samples []] = 500 :=
  (C8_hold_extremes true 500 [HoldEvent.samples []] (by decide) (by decide)
    (by decide)).2.2

/-- C6 witness: a quit arriving right before the min countdown aborts the
run with `calibrationDone` still false. -/
theorem C6_quit_aborts_witness :
    (performCalibration false ⟨0, 0, false⟩ ⟨true, false, 0, [], false, 0, []⟩).ok = false ∧
    (performCalibration false ⟨0, 0, false⟩
        ⟨true, false, 0, [], false, 0, []⟩).cfg.calibrationDone = false :=
  C6_quit_aborts ⟨0, 0, false⟩ ⟨true, false, 0, [], false, 0, []⟩ rfl (Or.inl rfl)

/-- A `procSample` fold only touches `currentValue` and `valueChanged`. -/
lemma procSample_foldl_invariants (vs : List Int) : ∀ (s : LoopState),
    (vs.foldl procSample s).previousValue = s.previousValue ∧
    (vs.foldl procSample s).lastSentMidiValue = s.lastSentMidiValue ∧
    (vs.foldl procSample s).lastMidiSendTime = s.lastMidiSendTime := by
  induction vs with
  | nil => intro s; exact ⟨rfl, rfl, rfl⟩
  | cons v vs ih =>
    intro s
    rw [List.foldl_cons]
    rcases ih (procSample s v) with ⟨h1, h2, h3⟩
    refine ⟨h1.trans ?_, h2.trans ?_, h3.trans ?_⟩ <;>
      by_cases h : v = s.currentValue <;> simp [procSample, h]

/-- A tick that sent something stamps `g_lastMidiSendTime` with its time. -/
lemma loopTick_sent_time (cfg : Config) (s : LoopState) (t : Tick)
    (h : (loopTick cfg s t).2 ≠ []) :
    (loopTick cfg s t).1.lastMidiSendTime = t.time := by
  by_cases hc : (t.samples.foldl procSample s).valueChanged = true ∧
      intervalMs cfg ≤ t.time - (t.samples.foldl procSample s).lastMidiSendTime
  · simp [loopTick, hc]
  · simp [loopTick, hc] at h

/-- A tick leaves `g_lastMidiSendTime` alone or stamps it with its time. -/
lemma loopTick_lastSend_cases (cfg : Config) (s : LoopState) (t : Tick) :
    (loopTick cfg s t).1.lastMidiSendTime = s.lastMidiSendTime ∨
    (loopTick cfg s t).1.lastMidiSendTime = t.time := by
  by_cases hc : (t.samples.foldl procSample s).valueChanged = true ∧
      intervalMs cfg ≤ t.time - (t.samples.foldl procSample s).lastMidiSendTime
  · right
    simp [loopTick, hc]
  · left
    simp only [loopTick]
    rw [if_neg hc]
    exact (procSample_foldl_invariants t.samples s).2.2

/-- Once the send timestamp is at or above `L` and every later tick runs at
or after `L`, every tick that sends does so at or after `L` plus the send
interval. -/
lemma runLoop_sends_lower_bound (cfg : Config) (L : Int) :
    ∀ (ts : List Tick) (s : LoopState), L ≤ s.lastMidiSendTime →
      (∀ t ∈ ts, L ≤ t.time) →
      ∀ p ∈ runLoop cfg s ts, p.2 ≠ [] → L + intervalMs cfg ≤ p.1 := by
  intro ts
  induction ts with
  | nil =>
    intro s hs hts p hp
    simp [runLoop] at hp
  | cons t ts ih =>
    intro s hs hts p hp hne
    simp only [runLoop] at hp
    rcases List.mem_cons.1 hp with h | h
    · subst h
      by_cases hc : (t.samples.foldl procSample s).valueChanged = true ∧
          intervalMs cfg ≤ t.time - (t.samples.foldl procSample s).lastMidiSendTime
      · have hlast := (procSample_foldl_invariants t.samples s).2.2
        have hc2 := hc.2
        rw [hlast] at hc2
        show L + intervalMs cfg ≤ t.time
        omega
      · exfalso
        simp [loopTick, hc] at hne
    · refine ih (loopTick cfg s t).1 ?_ (fun x hx => hts x (List.mem_cons_of_mem t hx)) p h hne
      rcases loopTick_lastSend_cases cfg s t with h2 | h2 <;> rw [h2]
      · exact hs
      · exact hts t (List.mem_cons_self t ts)

/-- Any two ticks that actually send, over a time-monotone trace, are at
least one send interval apart. -/
lemma runLoop_separation (cfg : Config) :
    ∀ (ts : List Tick) (s : LoopState),
      List.Pairwise (fun a b => a.time ≤ b.time) ts →
      ∀ (i j : Nat) (hi : i < (runLoop cfg s ts).length)
        (hj : j < (runLoop cfg s ts).length), i < j →
        ((runLoop cfg s ts).get ⟨i, hi⟩).2 ≠ [] →
        ((runLoop cfg s ts).get ⟨j, hj⟩).2 ≠ [] →
        ((runLoop cfg s ts).get ⟨i, hi⟩).1 + intervalMs cfg ≤
          ((runLoop cfg s ts).get ⟨j, hj⟩).1 := by
  intro ts
  induction ts with
  | nil =>
    intro s _ i j hi
    simp [runLoop] at hi
  | cons t ts ih =>
    intro s hp i j hi hj hij h1 h2
    simp only [runLoop] at hi hj h1 h2 ⊢
    cases i with
    | zero =>
      cases j with
      | zero => omega
      | succ j =>
        have hj2 : j < (runLoop cfg (loopTick cfg s t).1 ts).length :=
          Nat.lt_of_succ_lt_succ hj
        have hstamp := loopTick_sent_time cfg s t h1
        have hafter : ∀ x ∈ ts, t.time ≤ x.time := (List.pairwise_cons.1 hp).1
        exact runLoop_sends_lower_bound cfg t.time ts (loopTick cfg s t).1
          (le_of_eq hstamp.symm) hafter
          ((runLoop cfg (loopTick cfg s t).1 ts).get ⟨j, hj2⟩)
          (List.get_mem _ _ _) h2
    | succ i =>
      cases j with
      | zero => omega
      | succ j =>
        exact ih (loopTick cfg s t).1 (List.pairwise_cons.1 hp).2 i j
          (Nat.lt_of_succ_lt_succ hi) (Nat.lt_of_succ_lt_succ hj) (by omega) h1 h2

/-- C4: over a monitoring run with monotone tick times, any two ticks that
actually send MIDI are at least the send interval apart (and that interval
is at least `midiSendIntervalMs`); a pending change that arrives before the
interval elapses is deferred, not dropped: the tick emits nothing and leaves
the change flag set, to be re-evaluated against then-current state.  In the
concrete trace (changes to raw 100 at t=0 and raw 200 at t=5, interval
10 ms) exactly one send happens within the 10 ms window and the deferred
change is reflected at t=10. -/
theorem C4_rate_limiting (cfg : Config) (s : LoopState) (ts : List Tick)
    (hmono : List.Pairwise (fun a b => a.time ≤ b.time) ts) :
    (∀ (i j : Nat) (hi : i < (runLoop cfg s ts).length)
        (hj : j < (runLoop cfg s ts).length), i < j →
      ((runLoop cfg s ts).get ⟨i, hi⟩).2 ≠ [] →
      ((runLoop cfg s ts).get ⟨j, hj⟩).2 ≠ [] →
      ((runLoop cfg s ts).get ⟨i, hi⟩).1 + intervalMs cfg ≤
        ((runLoop cfg s ts).get ⟨j, hj⟩).1) ∧
    cfg.midiSendIntervalMs ≤ intervalMs cfg ∧
    (∀ t : Tick, (t.samples.foldl procSample s).valueChanged = true →
      t.time - (t.samples.foldl procSample s).lastMidiSendTime < intervalMs cfg →
      (loopTick cfg s t).1.valueChanged = true ∧ (loopTick cfg s t).2 = []) ∧
    runLoop (testAxisCfg false) ⟨0, 0, false, 0, -10⟩ rateTestTicks =
      [(0, [⟨0xB0, 1, 13⟩]), (5, []), (10, [⟨0xB0, 1, 25⟩])] := by
  refine ⟨runLoop_separation cfg ts s hmono, ?_, ?_, ?_⟩
  · by_cases h : 0 < cfg.midiSendIntervalMs <;> simp [intervalMs, h]
    omega
  · intro t hflag hlt
    have hc : ¬ ((t.samples.foldl procSample s).valueChanged = true ∧
        intervalMs cfg ≤ t.time - (t.samples.foldl procSample s).lastMidiSendTime) := by
      intro hcc
      omega
    simp only [loopTick]
    rw [if_neg hc]
    exact ⟨hflag, rfl⟩
  · have h100 : axisMidiValue (testAxisCfg false) 100 = 13 := by
      norm_num [axisMidiValue, testAxisCfg]
    have h200 : axisMidiValue (testAxisCfg false) 200 = 25 := by
      norm_num [axisMidiValue, testAxisCfg]
    have hb : (testAxisCfg false).isButton = false := rfl
    have ht : (testAxisCfg false).midiMessageType = MidiMessageType.CC := rfl
    have hd : (testAxisCfg false).calibrationDone = true := rfl
    have hch : mask4 (testAxisCfg false).midiChannel = 0 := rfl
    have hnum : mask7 (testAxisCfg false).midiNoteOrCCNumber = 1 := rfl
    have hint : intervalMs (testAxisCfg false) = 10 := rfl
    simp [runLoop, loopTick, procSample, sendMidiMessage, rateTestTicks,
      hb, ht, hd, hch, hnum, hint, h100, h200]

/-- C4 witness: the concrete deferred-change trace. -/
theorem C4_rate_limiting_witness :
    runLoop (testAxisCfg false) ⟨0, 0, false, 0, -10⟩ rateTestTicks =
      [(0, [⟨0xB0, 1, 13⟩]), (5, []), (10, [⟨0xB0, 1, 25⟩])] :=
  (C4_rate_limiting (testAxisCfg false) ⟨0, 0, false, 0, -10⟩ rateTestTicks
    (by decide)).2.2.2

end JoystickMidi
